import Mathlib

/-!
Verification of the process-dispatch core in src/sh.rs (crate urldispatch).

The module defines an exit-code protocol (struct ExitProtocol wrapping an
i32) with an encode direction (From io Error) and a decode direction
(Into nix Result), a child path that spawns the command and terminates the
duplicated process with a protocol code, a parent path that loops on
waitpid until a terminal wait status arrives, and a top-level dispatch that
forks and takes one of the two paths.

Machine integers (i32 exit codes, errno numbers, pids, signal numbers) are
modelled as Int; no arithmetic that could overflow occurs in the source,
only comparisons against 0. The OS primitives (spawn, fork, waitpid) are
modelled by passing their outcomes as explicit inputs: the spawn outcome as
an Except value, the fork outcome as an Except value, and the waitpid
primitive as the finite list of results its successive calls return.
-/

namespace Urldispatch

/-- Equality of Except values is decidable when it is on both sides. -/
def exceptDecEq {ε α : Type} [DecidableEq ε] [DecidableEq α] :
    (a b : Except ε α) → Decidable (a = b)
  | Except.ok a, Except.ok b =>
      if h : a = b then isTrue (by rw [h]) else isFalse (fun hc => by cases hc; exact h rfl)
  | Except.ok _, Except.error _ => isFalse (fun hc => by cases hc)
  | Except.error _, Except.ok _ => isFalse (fun hc => by cases hc)
  | Except.error a, Except.error b =>
      if h : a = b then isTrue (by rw [h]) else isFalse (fun hc => by cases hc; exact h rfl)

instance {ε α : Type} [DecidableEq ε] [DecidableEq α] : DecidableEq (Except ε α) :=
  exceptDecEq

/-- Model of std io Error as far as this crate observes it: the value of
its raw_os_error method, an optional OS error number. -/
structure IoError where
  raw_os_error : Option Int
deriving DecidableEq, Repr

/-- The errno values that the nix crate (the version exposing Error Sys and
errno from_i32, as used by this crate) recognizes on Linux: its from_i32
matches exactly the named errno constants, whose values are 1 to 40,
42 to 57 and 59 to 133; every other argument falls to the default arm. -/
def isKnownErrno (n : Int) : Bool :=
  (1 ≤ n && n ≤ 40) || (42 ≤ n && n ≤ 57) || (59 ≤ n && n ≤ 133)

/-- nix Errno enum: the named variants are represented here by their errno
number, plus the distinguished UnknownErrno variant (whose own numeric
value is 0). -/
inductive Errno where
  | unknownErrno
  | known (n : Int)
deriving DecidableEq, Repr

/-- nix errno from_i32: a recognized errno value maps to its named
variant, any other value maps to UnknownErrno (the default match arm). -/
def from_i32 (n : Int) : Errno :=
  if isKnownErrno n then Errno.known n else Errno.unknownErrno

/-- Errno EINTR has value 4 on Linux. -/
def EINTR : Errno := Errno.known 4

/-- nix Error: this module only ever constructs the Sys variant. -/
inductive NixError where
  | sys (e : Errno)
deriving DecidableEq, Repr

/-- struct ExitProtocol(i32): the exit-code channel between the dispatch
processes. -/
structure ExitProtocol where
  code : Int
deriving DecidableEq, Repr

/-- impl From io Error for ExitProtocol: take the raw OS error number when
present, otherwise -1. -/
def ExitProtocol.from_io_error (e : IoError) : ExitProtocol :=
  match e.raw_os_error with
  | some errno => ⟨errno⟩
  | none => ⟨-1⟩

/-- impl Into i32 for ExitProtocol: unwrap the code. -/
def ExitProtocol.into_i32 (p : ExitProtocol) : Int := p.code

/-- Three-way comparison of Rust i32 (cmp against another value), as the
Ordering it returns. -/
def i32_cmp (a b : Int) : Ordering :=
  if a < b then Ordering.lt else if a = b then Ordering.eq else Ordering.gt

/-- impl Into nix Result for ExitProtocol: match on the three-way
comparison of the code against 0. -/
def ExitProtocol.into_result (p : ExitProtocol) : Except NixError Unit :=
  match i32_cmp p.code 0 with
  | Ordering.lt => Except.error (NixError.sys Errno.unknownErrno)
  | Ordering.eq => Except.ok ()
  | Ordering.gt => Except.error (NixError.sys (from_i32 p.code))

/-- A process termination event. The child path of the source has return
type never and every branch calls process exit, so its behaviour is fully
described by a value of this type. -/
inductive ProcessTermination where
  | exit (code : Int)
deriving DecidableEq, Repr

/-- fn dispatch_child: spawn the command; on success exit with protocol
code 0, on failure exit with the code the io error converts to. The spawn
outcome (success, or the io error) is the input the child branches on; the
spawned child handle is ignored by the source, so success carries Unit. -/
def dispatch_child (spawn_result : Except IoError Unit) : ProcessTermination :=
  match spawn_result with
  | Except.ok _ => ProcessTermination.exit (ExitProtocol.into_i32 ⟨0⟩)
  | Except.error error =>
      ProcessTermination.exit (ExitProtocol.into_i32 (ExitProtocol.from_io_error error))

/-- nix sys wait WaitStatus, with pids, signal numbers and ptrace event
numbers as integers. -/
inductive WaitStatus where
  | exited (pid : Int) (code : Int)
  | signaled (pid : Int) (signal : Int) (core_dumped : Bool)
  | stopped (pid : Int) (signal : Int)
  | ptraceEvent (pid : Int) (signal : Int) (event : Int)
  | ptraceSyscall (pid : Int)
  | continued (pid : Int)
  | stillAlive
deriving DecidableEq, Repr

/-- The result of one waitpid call: a wait status, or a nix error
propagated by the question-mark operator. -/
abbrev WaitResult := Except NixError WaitStatus

/-- The INTERRUPTED constant of dispatch_parent: Err Sys EINTR. -/
def INTERRUPTED : Except NixError Unit := Except.error (NixError.sys EINTR)

/-- fn dispatch_parent: the blocking wait loop, modelled over the finite
sequence of results that successive waitpid calls return, consumed in
order. Result none means the sequence was exhausted with the loop still
waiting; some r means the loop broke (or returned early on a wait error)
with result r. -/
def dispatch_parent : List WaitResult → Option (Except NixError Unit)
  | [] => none
  | Except.error e :: _ => some (Except.error e)
  | Except.ok (WaitStatus.exited _ ec) :: _ => some (ExitProtocol.into_result ⟨ec⟩)
  | Except.ok (WaitStatus.signaled _ _ _) :: _ => some INTERRUPTED
  | Except.ok _ :: rest => dispatch_parent rest

/-- Wait results on which the parent loop continues waiting: any
successfully reported status other than exited and signaled. -/
def skipped : WaitResult → Bool
  | Except.ok (WaitStatus.exited _ _) => false
  | Except.ok (WaitStatus.signaled _ _ _) => false
  | Except.ok _ => true
  | Except.error _ => false

/-- nix unistd ForkResult: which of the two execution paths this process
continues on after fork. -/
inductive ForkResult where
  | child
  | parent (child : Int)
deriving DecidableEq, Repr

/-- What one dispatch call does, observed at the call boundary: return a
result to the caller, terminate the process running it (child path), or
remain blocked in the wait loop. -/
inductive DispatchOutcome where
  | returns (r : Except NixError Unit)
  | terminates (code : Int)
  | waiting
deriving DecidableEq, Repr

/-- pub fn dispatch: fork, then take the child or the parent path; a fork
error propagates to the caller via the question-mark operator. The fork
outcome, the spawn outcome and the waitpid result sequence are the
environment inputs. -/
def dispatch (fork_result : Except NixError ForkResult)
    (spawn_result : Except IoError Unit)
    (wait_results : List WaitResult) : DispatchOutcome :=
  match fork_result with
  | Except.error e => DispatchOutcome.returns (Except.error e)
  | Except.ok ForkResult.child =>
      match dispatch_child spawn_result with
      | ProcessTermination.exit c => DispatchOutcome.terminates c
  | Except.ok (ForkResult.parent _) =>
      match dispatch_parent wait_results with
      | some r => DispatchOutcome.returns r
      | none => DispatchOutcome.waiting

/-! Helper lemmas about the decode step. -/

/-- The decode step written as nested conditionals on the code. -/
theorem into_result_eq (ec : Int) :
    ExitProtocol.into_result ⟨ec⟩ =
      if ec < 0 then Except.error (NixError.sys Errno.unknownErrno)
      else if ec = 0 then Except.ok ()
      else Except.error (NixError.sys (from_i32 ec)) := by
  unfold ExitProtocol.into_result i32_cmp
  split_ifs <;> rfl

/-- Decoding a negative code yields the unknown failure. -/
theorem into_result_of_neg (ec : Int) (h : ec < 0) :
    ExitProtocol.into_result ⟨ec⟩ = Except.error (NixError.sys Errno.unknownErrno) := by
  rw [into_result_eq, if_pos h]

/-- Decoding zero yields success. -/
theorem into_result_of_zero : ExitProtocol.into_result ⟨0⟩ = Except.ok () := rfl

/-- Decoding a positive code yields the failure carrying from_i32 of it. -/
theorem into_result_of_pos (ec : Int) (h : 0 < ec) :
    ExitProtocol.into_result ⟨ec⟩ = Except.error (NixError.sys (from_i32 ec)) := by
  rw [into_result_eq, if_neg (by omega), if_neg (by omega)]

/-- C1 is false at ec = 200: the code is positive, yet decoding yields the
unknown failure, not a failure carrying the platform error-number 200, so
both the positive-code clause (ec > 0 iff numbered failure with number ec)
and the negative-code clause (unknown failure iff ec < 0) fail there. -/
theorem c1_counterexample :
    (0:Int) < 200 ∧
    ExitProtocol.into_result ⟨200⟩ = Except.error (NixError.sys Errno.unknownErrno) ∧
    ExitProtocol.into_result ⟨200⟩ ≠ Except.error (NixError.sys (Errno.known 200)) := by
  refine ⟨by norm_num, by decide, by decide⟩

/-- C1 amended: for every code ec in the i32 range, decoding yields
success iff ec = 0; yields a failure carrying the platform error-number ec
iff ec is positive and a recognized errno value; and yields the unknown
failure iff ec is negative, or positive but not a recognized errno value. -/
theorem c1_decode_amended (ec : Int) (hlo : -(2^31) ≤ ec) (hhi : ec < 2^31) :
    (ExitProtocol.into_result ⟨ec⟩ = Except.ok () ↔ ec = 0) ∧
    (ExitProtocol.into_result ⟨ec⟩ = Except.error (NixError.sys (Errno.known ec)) ↔
      0 < ec ∧ isKnownErrno ec = true) ∧
    (ExitProtocol.into_result ⟨ec⟩ = Except.error (NixError.sys Errno.unknownErrno) ↔
      (ec < 0 ∨ (0 < ec ∧ isKnownErrno ec = false))) := by
  rcases lt_trichotomy ec 0 with h | h | h
  · rw [into_result_of_neg ec h]
    refine ⟨⟨fun hc => by simp at hc, fun hc => absurd hc (by omega)⟩,
            ⟨fun hc => by simp at hc, fun hc => absurd hc.1 (by omega)⟩,
            ⟨fun _ => Or.inl h, fun _ => rfl⟩⟩
  · subst h
    rw [into_result_of_zero]
    refine ⟨⟨fun _ => rfl, fun _ => rfl⟩,
            ⟨fun hc => by simp at hc, fun hc => absurd hc.1 (by omega)⟩,
            ⟨fun hc => by simp at hc, fun hc => by rcases hc with hc | hc <;> omega⟩⟩
  · rw [into_result_of_pos ec h]
    by_cases hk : isKnownErrno ec = true
    · rw [from_i32, if_pos hk]
      refine ⟨⟨fun hc => by simp at hc, fun hc => absurd hc (by omega)⟩,
              ⟨fun _ => ⟨h, hk⟩, fun _ => rfl⟩,
              ⟨fun hc => by simp at hc, fun hc => ?_⟩⟩
      rcases hc with hc | hc
      · omega
      · rw [hk] at hc; exact absurd hc.2 (by simp)
    · rw [from_i32, if_neg hk]
      refine ⟨⟨fun hc => by simp at hc, fun hc => absurd hc (by omega)⟩,
              ⟨fun hc => by simp at hc, fun hc => absurd hc.2 hk⟩,
              ⟨fun _ => Or.inr ⟨h, by simpa using hk⟩, fun _ => rfl⟩⟩

/-- C1 amended witness at ec = 2 (a recognized errno, ENOENT). -/
theorem c1_decode_amended_witness :
    ExitProtocol.into_result ⟨2⟩ = Except.error (NixError.sys (Errno.known 2)) :=
  ((c1_decode_amended 2 (by norm_num) (by norm_num)).2.1).mpr ⟨by norm_num, by decide⟩

/-- C8: a positive code that is not a recognized platform errno decodes to
the unclassified unknown failure, which is exactly what every negative
code decodes to, so the two are indistinguishable to the caller. -/
theorem c8_unknown_positive (ec : Int) (hpos : 0 < ec) (hunk : isKnownErrno ec = false) :
    ExitProtocol.into_result ⟨ec⟩ = Except.error (NixError.sys Errno.unknownErrno) ∧
    (∀ m : Int, m < 0 → ExitProtocol.into_result ⟨ec⟩ = ExitProtocol.into_result ⟨m⟩) := by
  have h1 : ExitProtocol.into_result ⟨ec⟩ = Except.error (NixError.sys Errno.unknownErrno) := by
    rw [into_result_of_pos ec hpos, from_i32, if_neg (by simp [hunk])]
  exact ⟨h1, fun m hm => by rw [h1, into_result_of_neg m hm]⟩

/-- C8 witness at ec = 200, compared with the negative code -1. -/
theorem c8_unknown_positive_witness :
    ExitProtocol.into_result ⟨200⟩ = ExitProtocol.into_result ⟨-1⟩ :=
  (c8_unknown_positive 200 (by norm_num) (by decide)).2 (-1) (by norm_num)

/-- C10: the decode step is total on the i32 range: every code produces
one of the three outcomes (success, numbered failure, unknown failure),
and no two of the outcomes hold at once. -/
theorem c10_decode_total (ec : Int) (hlo : -(2^31) ≤ ec) (hhi : ec < 2^31) :
    (ExitProtocol.into_result ⟨ec⟩ = Except.ok () ∨
     (∃ n, ExitProtocol.into_result ⟨ec⟩ = Except.error (NixError.sys (Errno.known n))) ∨
     ExitProtocol.into_result ⟨ec⟩ = Except.error (NixError.sys Errno.unknownErrno)) ∧
    ¬(ExitProtocol.into_result ⟨ec⟩ = Except.ok () ∧
      (∃ n, ExitProtocol.into_result ⟨ec⟩ = Except.error (NixError.sys (Errno.known n)))) ∧
    ¬(ExitProtocol.into_result ⟨ec⟩ = Except.ok () ∧
      ExitProtocol.into_result ⟨ec⟩ = Except.error (NixError.sys Errno.unknownErrno)) ∧
    ¬((∃ n, ExitProtocol.into_result ⟨ec⟩ = Except.error (NixError.sys (Errno.known n))) ∧
      ExitProtocol.into_result ⟨ec⟩ = Except.error (NixError.sys Errno.unknownErrno)) := by
  refine ⟨?_, ?_, ?_, ?_⟩
  · rw [into_result_eq]
    split_ifs with h1 h2
    · exact Or.inr (Or.inr rfl)
    · exact Or.inl rfl
    · unfold from_i32
      split_ifs with h3
      · exact Or.inr (Or.inl ⟨ec, rfl⟩)
      · exact Or.inr (Or.inr rfl)
  · rintro ⟨ha, n, hb⟩
    exact absurd (ha.symm.trans hb) (by simp)
  · rintro ⟨ha, hb⟩
    exact absurd (ha.symm.trans hb) (by simp)
  · rintro ⟨⟨n, ha⟩, hb⟩
    exact absurd (ha.symm.trans hb) (by simp)

/-- C10 witness at ec = 0. -/
theorem c10_decode_total_witness :
    ExitProtocol.into_result ⟨0⟩ = Except.ok () ∨
    (∃ n, ExitProtocol.into_result ⟨0⟩ = Except.error (NixError.sys (Errno.known n))) ∨
    ExitProtocol.into_result ⟨0⟩ = Except.error (NixError.sys Errno.unknownErrno) :=
  (c10_decode_total 0 (by norm_num) (by norm_num)).1

/-! Helper lemmas about the parent wait loop. -/

/-- On a wait result the loop skips, one loop iteration changes nothing
but the remaining wait results. -/
theorem dispatch_parent_skip (r : WaitResult) (h : skipped r = true) (rest : List WaitResult) :
    dispatch_parent (r :: rest) = dispatch_parent rest := by
  match r with
  | Except.error e => simp [skipped] at h
  | Except.ok w =>
    cases w with
    | exited p c => simp [skipped] at h
    | signaled p s c => simp [skipped] at h
    | stopped p s => rfl
    | ptraceEvent p s e => rfl
    | ptraceSyscall p => rfl
    | continued p => rfl
    | stillAlive => rfl

/-- A block of skipped wait results is transparent to the loop. -/
theorem dispatch_parent_skip_all (pre : List WaitResult)
    (h : ∀ r ∈ pre, skipped r = true) (rest : List WaitResult) :
    dispatch_parent (pre ++ rest) = dispatch_parent rest := by
  induction pre with
  | nil => rfl
  | cons r pre ih =>
    rw [List.cons_append, dispatch_parent_skip r (h r (List.mem_cons_self r pre)) _,
        ih (fun x hx => h x (List.mem_cons_of_mem r hx))]

/-- C2: on the child path, a failed spawn terminates the child with the
carried platform error-number when the error has one, and with -1 when it
has none. -/
theorem c2_child_error_mapping (e : IoError) :
    (∀ n : Int, e.raw_os_error = some n →
      dispatch_child (Except.error e) = ProcessTermination.exit n) ∧
    (e.raw_os_error = none →
      dispatch_child (Except.error e) = ProcessTermination.exit (-1)) := by
  constructor
  · intro n hn
    simp [dispatch_child, ExitProtocol.from_io_error, ExitProtocol.into_i32, hn]
  · intro hn
    simp [dispatch_child, ExitProtocol.from_io_error, ExitProtocol.into_i32, hn]

/-- C2 witness: a spawn error carrying errno 2, and one carrying none. -/
theorem c2_child_error_mapping_witness :
    dispatch_child (Except.error ⟨some 2⟩) = ProcessTermination.exit 2 ∧
    dispatch_child (Except.error ⟨none⟩) = ProcessTermination.exit (-1) :=
  ⟨(c2_child_error_mapping ⟨some 2⟩).1 2 rfl, (c2_child_error_mapping ⟨none⟩).2 rfl⟩

/-- C3: on the parent path, after any block of skipped wait events, a
reported normal exit with code ec makes dispatch return exactly the decode
of ec. -/
theorem c3_parent_exit_decodes (pid : Int) (spawn_result : Except IoError Unit)
    (pre : List WaitResult) (h : ∀ r ∈ pre, skipped r = true)
    (p ec : Int) (rest : List WaitResult) :
    dispatch (Except.ok (ForkResult.parent pid)) spawn_result
        (pre ++ Except.ok (WaitStatus.exited p ec) :: rest) =
      DispatchOutcome.returns (ExitProtocol.into_result ⟨ec⟩) := by
  unfold dispatch
  rw [dispatch_parent_skip_all pre h]
  rfl

/-- C3 witness: exit code 0 reported after one stopped event. -/
theorem c3_parent_exit_decodes_witness :
    dispatch (Except.ok (ForkResult.parent 7)) (Except.ok ())
        ([Except.ok (WaitStatus.stopped 7 19)] ++ Except.ok (WaitStatus.exited 7 0) :: []) =
      DispatchOutcome.returns (ExitProtocol.into_result ⟨0⟩) :=
  c3_parent_exit_decodes 7 (Except.ok ()) [Except.ok (WaitStatus.stopped 7 19)]
    (by intro r hr; simp at hr; rw [hr]; rfl) 7 0 []

/-- C4: on the parent path, after any block of skipped wait events, a
reported signal-termination makes dispatch return Err Sys EINTR, whatever
the signal and the core-dump flag were. -/
theorem c4_parent_signaled_eintr (pid : Int) (spawn_result : Except IoError Unit)
    (pre : List WaitResult) (h : ∀ r ∈ pre, skipped r = true)
    (p signal : Int) (core_dumped : Bool) (rest : List WaitResult) :
    dispatch (Except.ok (ForkResult.parent pid)) spawn_result
        (pre ++ Except.ok (WaitStatus.signaled p signal core_dumped) :: rest) =
      DispatchOutcome.returns (Except.error (NixError.sys EINTR)) := by
  unfold dispatch
  rw [dispatch_parent_skip_all pre h]
  rfl

/-- C4 witness: the child killed by signal 9 with no preceding events. -/
theorem c4_parent_signaled_eintr_witness :
    dispatch (Except.ok (ForkResult.parent 7)) (Except.ok ())
        ([] ++ Except.ok (WaitStatus.signaled 7 9 false) :: []) =
      DispatchOutcome.returns (Except.error (NixError.sys EINTR)) :=
  c4_parent_signaled_eintr 7 (Except.ok ()) [] (by intro r hr; simp at hr) 7 9 false []

/-- C5: the parent loop does not return on a skipped wait event but waits
again; consequently, on a wait trace consisting only of skipped events the
loop never returns, and dispatch on the parent path stays waiting. -/
theorem c5_nonterminal_skipped :
    (∀ (r : WaitResult), skipped r = true → ∀ rest : List WaitResult,
      dispatch_parent (r :: rest) = dispatch_parent rest) ∧
    (∀ wait_results : List WaitResult, (∀ r ∈ wait_results, skipped r = true) →
      dispatch_parent wait_results = none) ∧
    (∀ (pid : Int) (spawn_result : Except IoError Unit) (wait_results : List WaitResult),
      (∀ r ∈ wait_results, skipped r = true) →
      dispatch (Except.ok (ForkResult.parent pid)) spawn_result wait_results =
        DispatchOutcome.waiting) := by
  have hall : ∀ wait_results : List WaitResult, (∀ r ∈ wait_results, skipped r = true) →
      dispatch_parent wait_results = none := by
    intro wait_results h
    have := dispatch_parent_skip_all wait_results h []
    simpa using this
  refine ⟨fun r h rest => dispatch_parent_skip r h rest, hall, ?_⟩
  intro pid spawn_result wait_results h
  unfold dispatch
  rw [hall wait_results h]

/-- C5 witness: a stopped event is skipped and a trace of one stopped
event leaves dispatch waiting. -/
theorem c5_nonterminal_skipped_witness :
    dispatch_parent (Except.ok (WaitStatus.stopped 7 19) :: []) = dispatch_parent [] ∧
    dispatch (Except.ok (ForkResult.parent 7)) (Except.ok ())
        [Except.ok (WaitStatus.stopped 7 19)] = DispatchOutcome.waiting :=
  ⟨c5_nonterminal_skipped.1 (Except.ok (WaitStatus.stopped 7 19)) rfl [],
   c5_nonterminal_skipped.2.2 7 (Except.ok ()) [Except.ok (WaitStatus.stopped 7 19)]
     (by intro r hr; simp at hr; rw [hr]; rfl)⟩

/-- C6: both branches of the child path terminate the duplicated process:
a successful spawn exits with code 0, a failed spawn exits with the mapped
code, and on the child fork path dispatch always ends in a process
termination, never in a return to the caller. -/
theorem c6_child_always_terminates :
    dispatch_child (Except.ok ()) = ProcessTermination.exit 0 ∧
    (∀ e : IoError, dispatch_child (Except.error e) =
      ProcessTermination.exit (ExitProtocol.into_i32 (ExitProtocol.from_io_error e))) ∧
    (∀ (spawn_result : Except IoError Unit) (wait_results : List WaitResult),
      ∃ c : Int, dispatch (Except.ok ForkResult.child) spawn_result wait_results =
        DispatchOutcome.terminates c) := by
  refine ⟨rfl, fun e => rfl, ?_⟩
  intro spawn_result wait_results
  cases spawn_result with
  | ok u => exact ⟨0, rfl⟩
  | error e => exact ⟨ExitProtocol.into_i32 (ExitProtocol.from_io_error e), rfl⟩

/-- C7: a fork failure is returned to the caller as that platform error,
whatever the child-side and wait-side inputs would have been; and a wait
failure, after any block of skipped events, is returned to the caller as
that platform error. -/
theorem c7_primitive_errors_surfaced :
    (∀ (e : NixError) (spawn_result : Except IoError Unit) (wait_results : List WaitResult),
      dispatch (Except.error e) spawn_result wait_results =
        DispatchOutcome.returns (Except.error e)) ∧
    (∀ (pid : Int) (spawn_result : Except IoError Unit) (pre : List WaitResult),
      (∀ r ∈ pre, skipped r = true) → ∀ (e : NixError) (rest : List WaitResult),
      dispatch (Except.ok (ForkResult.parent pid)) spawn_result
          (pre ++ Except.error e :: rest) =
        DispatchOutcome.returns (Except.error e)) := by
  refine ⟨fun e spawn_result wait_results => rfl, ?_⟩
  intro pid spawn_result pre h e rest
  unfold dispatch
  rw [dispatch_parent_skip_all pre h]
  rfl

/-- C7 witness: a wait failure with errno ECHILD (10) right away. -/
theorem c7_primitive_errors_surfaced_witness :
    dispatch (Except.ok (ForkResult.parent 7)) (Except.ok ())
        ([] ++ Except.error (NixError.sys (Errno.known 10)) :: []) =
      DispatchOutcome.returns (Except.error (NixError.sys (Errno.known 10))) :=
  c7_primitive_errors_surfaced.2 7 (Except.ok ()) [] (by intro r hr; simp at hr)
    (NixError.sys (Errno.known 10)) []

/-- C9 is false for the io error whose raw OS error number is 0: encoding
gives protocol code 0, which decodes to success. -/
theorem c9_counterexample :
    ExitProtocol.into_result (ExitProtocol.from_io_error ⟨some 0⟩) = Except.ok () := by
  decide

/-- C9 amended: for every platform io error not carrying the error-number
0, encode followed by decode never yields success; when it carries a
positive recognized error-number n, the decoded failure carries n; and
when it carries no error-number, the decoded failure is the unknown one. -/
theorem c9_roundtrip_amended (e : IoError) (h : e.raw_os_error ≠ some 0) :
    ExitProtocol.into_result (ExitProtocol.from_io_error e) ≠ Except.ok () ∧
    (∀ n : Int, e.raw_os_error = some n → 0 < n → isKnownErrno n = true →
      ExitProtocol.into_result (ExitProtocol.from_io_error e) =
        Except.error (NixError.sys (Errno.known n))) ∧
    (e.raw_os_error = none →
      ExitProtocol.into_result (ExitProtocol.from_io_error e) =
        Except.error (NixError.sys Errno.unknownErrno)) := by
  refine ⟨?_, ?_, ?_⟩
  · cases he : e.raw_os_error with
    | none =>
      rw [ExitProtocol.from_io_error, he]
      rw [show ExitProtocol.into_result ⟨-1⟩ =
            Except.error (NixError.sys Errno.unknownErrno) from
          into_result_of_neg (-1) (by norm_num)]
      simp
    | some n =>
      have hn : n ≠ 0 := by intro hc; exact h (by rw [he, hc])
      rw [ExitProtocol.from_io_error, he]
      rcases lt_or_gt_of_ne hn with hlt | hgt
      · rw [into_result_of_neg n hlt]; simp
      · rw [into_result_of_pos n hgt]; simp
  · intro n he hpos hk
    rw [ExitProtocol.from_io_error, he, into_result_of_pos n hpos, from_i32, if_pos hk]
  · intro he
    rw [ExitProtocol.from_io_error, he]
    exact into_result_of_neg (-1) (by norm_num)

/-- C9 amended witness: the io error carrying errno 2. -/
theorem c9_roundtrip_amended_witness :
    ExitProtocol.into_result (ExitProtocol.from_io_error ⟨some 2⟩) =
      Except.error (NixError.sys (Errno.known 2)) :=
  (c9_roundtrip_amended ⟨some 2⟩ (by simp)).2.1 2 rfl (by norm_num) (by decide)

end Urldispatch
